import Mathlib

/-!
# Modern 3D basics: the cube mesh, its upload and the frame loop

A shallow embedding of the two demonstration programs `Uniforms/src/main.cpp`
and `VertexBuffers/src/main.cpp`.

* OpenGL and window calls are recorded, in program order, as a list of
  `Effect`s.  Each action carries the argument values as they are written at
  the call site, except the count of `glDrawElements`: the programs pass a
  `uint32_t` where the OpenGL API declares a `GLsizei`, a signed 32-bit
  integer, and the value recorded is the one the parameter receives.
* `uint32_t` values are naturals reduced modulo `2 ^ 32`; `size_t` products are
  naturals reduced modulo `2 ^ 64`.
* The coordinates of a `Vertex3D` are kept as exact rationals.  The only
  literals the programs use, `0.5` and `-0.5`, are exactly representable in
  binary32, so no rounding takes place.
* Object names handed out by the driver (`glGenVertexArrays`, `glGenBuffers`)
  are inputs of the embedding.
-/

/-! ## Data model shared by the two programs -/

/-- The C++ `struct Mesh { uint32_t vao; uint32_t faces; }`. -/
structure Mesh where
  vao : Nat
  faces : Nat
deriving DecidableEq, Repr

/-- The C++ `struct Vertex3D { float x; float y; float z; }`. -/
structure Vertex3D where
  x : ℚ
  y : ℚ
  z : ℚ
deriving DecidableEq, Repr

/-- Size in bytes of a `float`. -/
def sizeofFloat : Nat := 4

/-- Size in bytes of a `uint32_t`. -/
def sizeofUint32 : Nat := 4

/-- Size in bytes of a `Vertex3D`: three `float` members, no padding. -/
def sizeofVertex3D : Nat := sizeofFloat + sizeofFloat + sizeofFloat

/-- Number of values of a `uint32_t`. -/
def uint32Size : Nat := 2 ^ 32

/-- Number of values of a `size_t`. -/
def sizeTSize : Nat := 2 ^ 64

/-- The value a `GLsizei` parameter (a signed 32-bit integer) receives from a
`uint32_t` argument: the argument modulo `2 ^ 32`, read in two's complement. -/
def toGLsizei (n : Nat) : Int :=
  if n % uint32Size < 2 ^ 31 then ((n % uint32Size : Nat) : Int)
  else ((n % uint32Size : Nat) : Int) - (uint32Size : Int)

/-- Buffer binding targets used by the programs. -/
inductive BufferTarget where
  | arrayBuffer
  | elementArrayBuffer
deriving DecidableEq, Repr

/-- The client memory a `glBufferData` call copies from: the pointer `&v[0]`
is recorded as the contents of the vector `v`. -/
inductive BufferSource where
  | vertexData (vertices : List Vertex3D)
  | indexData (indices : List Nat)
deriving DecidableEq, Repr

/-- Window events, as far as the programs tell them apart. -/
inductive Event where
  | closed
  | other (tag : Nat)
deriving DecidableEq, Repr

/-- Bits of the mask given to `glClear`. -/
inductive ClearBit where
  | colorBufferBit
  | depthBufferBit
deriving DecidableEq, Repr

/-- Primitive modes of `glDrawElements`. -/
inductive DrawMode where
  | triangles
deriving DecidableEq, Repr

/-- Component and index types. -/
inductive GLType where
  | float
  | unsignedInt
deriving DecidableEq, Repr

/-- Usage hints of `glBufferData`. -/
inductive Usage where
  | staticDraw
deriving DecidableEq, Repr

/-- One observable call of a program, with its arguments as written at the
call site (and, for the calls that return or write a value, that value); the
count of `drawElements` is the value its `GLsizei` parameter receives.
Reads of the clock and of `window.isOpen()` are not recorded. A `float`
argument is recorded by the exact value of its expression; what is printed for
the frame rate depends on the clock only and is not recorded. -/
inductive Effect where
  | genVertexArrays (n : Nat) (name : Nat)
  | bindVertexArray (vao : Nat)
  | genBuffers (n : Nat) (name : Nat)
  | bindBuffer (target : BufferTarget) (buffer : Nat)
  | bufferData (target : BufferTarget) (size : Nat) (data : BufferSource) (usage : Usage)
  | vertexAttribPointer (index : Nat) (size : Nat) (type : GLType) (normalized : Bool)
      (stride : Nat) (offset : Nat)
  | enableVertexAttribArray (index : Nat)
  | drawElements (mode : DrawMode) (count : Int) (type : GLType) (offset : Nat)
  | clear (mask : List ClearBit)
  | pollEvent (result : Option Event)
  | windowCreate
  | loadGL
  | polygonModeLine
  | windowClose
  | windowDisplay
  | printFps
  | printProgress (progress : ℚ)
  | setUniformColor (r : ℚ) (g : ℚ) (b : ℚ)
  | shaderActivate
deriving DecidableEq, Repr

/-- The object names the driver writes during one `constructMesh` call. -/
structure GenNames where
  vao : Nat
  vbo : Nat
  ebo : Nat
deriving DecidableEq, Repr

/-! ## Program `Uniforms` -/

namespace Uniforms

/-- Embeds `constructMesh` of `Uniforms/src/main.cpp`: the mesh returned and
the calls made. `m.faces = faces.size()` narrows a `size_t` to `uint32_t`. -/
def constructMesh (gen : GenNames) (vertices : List Vertex3D) (faces : List Nat) :
    Mesh × List Effect :=
  let m : Mesh := { vao := 0, faces := 0 }
  let m : Mesh := { m with faces := faces.length % uint32Size }
  let m : Mesh := { m with vao := gen.vao }
  (m,
   [ Effect.genVertexArrays 1 gen.vao,
     Effect.bindVertexArray m.vao,
     Effect.genBuffers 1 gen.vbo,
     Effect.bindBuffer BufferTarget.arrayBuffer gen.vbo,
     Effect.bufferData BufferTarget.arrayBuffer
       (vertices.length * sizeofVertex3D % sizeTSize)
       (BufferSource.vertexData vertices) Usage.staticDraw,
     Effect.vertexAttribPointer 0 3 GLType.float false (3 * sizeofFloat % sizeTSize) 0,
     Effect.enableVertexAttribArray 0,
     Effect.genBuffers 1 gen.ebo,
     Effect.bindBuffer BufferTarget.elementArrayBuffer gen.ebo,
     Effect.bufferData BufferTarget.elementArrayBuffer
       (faces.length * sizeofUint32 % sizeTSize)
       (BufferSource.indexData faces) Usage.staticDraw,
     Effect.bindVertexArray 0 ])

/-- Embeds `drawMesh`: bind the vertex array, one `glDrawElements`, unbind.
The `uint32_t` `m.faces` is passed as the `GLsizei` count. -/
def drawMesh (m : Mesh) : List Effect :=
  [ Effect.bindVertexArray m.vao,
    Effect.drawElements DrawMode.triangles (toGLsizei m.faces) GLType.unsignedInt 0,
    Effect.bindVertexArray 0 ]

/-- The labels written in front of the vertices of `cube`, in source order. -/
def cubeLabels : List String :=
  ["BUR", "BUL", "BLL", "BLR", "FUR", "FUL", "FLL", "FLR"]

/-- The local `vertices` of `cube`. -/
def cubeVertices : List Vertex3D :=
  [ ⟨0.5, 0.5, -0.5⟩,
    ⟨-0.5, 0.5, -0.5⟩,
    ⟨-0.5, -0.5, -0.5⟩,
    ⟨0.5, -0.5, -0.5⟩,
    ⟨0.5, 0.5, 0.5⟩,
    ⟨-0.5, 0.5, 0.5⟩,
    ⟨-0.5, -0.5, 0.5⟩,
    ⟨0.5, -0.5, 0.5⟩ ]

/-- The local `faces` of `cube`. -/
def cubeFaces : List Nat :=
  [ 0, 1, 2,
    0, 2, 3,
    4, 0, 3,
    4, 3, 7,
    5, 4, 7,
    5, 7, 6,
    1, 5, 6,
    1, 6, 2,
    4, 5, 1,
    4, 1, 0,
    2, 6, 7,
    2, 7, 3 ]

/-- Embeds `cube`: `return constructMesh(vertices, faces);`. -/
def cube (gen : GenNames) : Mesh × List Effect :=
  constructMesh gen cubeVertices cubeFaces

end Uniforms

/-! ## Program `VertexBuffers` -/

namespace VertexBuffers

/-- Embeds `constructMesh` of `VertexBuffers/src/main.cpp`: the mesh returned
and the calls made. `m.faces = static_cast<uint32_t>(faces.size())`. -/
def constructMesh (gen : GenNames) (vertices : List Vertex3D) (faces : List Nat) :
    Mesh × List Effect :=
  let m : Mesh := { vao := 0, faces := 0 }
  let m : Mesh := { m with faces := faces.length % uint32Size }
  let m : Mesh := { m with vao := gen.vao }
  (m,
   [ Effect.genVertexArrays 1 gen.vao,
     Effect.bindVertexArray m.vao,
     Effect.genBuffers 1 gen.vbo,
     Effect.bindBuffer BufferTarget.arrayBuffer gen.vbo,
     Effect.bufferData BufferTarget.arrayBuffer
       (vertices.length * sizeofVertex3D % sizeTSize)
       (BufferSource.vertexData vertices) Usage.staticDraw,
     Effect.vertexAttribPointer 0 3 GLType.float false sizeofVertex3D 0,
     Effect.enableVertexAttribArray 0,
     Effect.genBuffers 1 gen.ebo,
     Effect.bindBuffer BufferTarget.elementArrayBuffer gen.ebo,
     Effect.bufferData BufferTarget.elementArrayBuffer
       (faces.length * sizeofUint32 % sizeTSize)
       (BufferSource.indexData faces) Usage.staticDraw,
     Effect.bindVertexArray 0 ])

/-- The labels written in front of the vertices of `cube`, in source order. -/
def cubeLabels : List String :=
  ["BUR", "BUL", "BLL", "BLR", "FUR", "FUL", "FLL", "FLR"]

/-- The local `vertices` of `cube`. -/
def cubeVertices : List Vertex3D :=
  [ ⟨0.5, 0.5, -0.5⟩,
    ⟨-0.5, 0.5, -0.5⟩,
    ⟨-0.5, -0.5, -0.5⟩,
    ⟨0.5, -0.5, -0.5⟩,
    ⟨0.5, 0.5, 0.5⟩,
    ⟨-0.5, 0.5, 0.5⟩,
    ⟨-0.5, -0.5, 0.5⟩,
    ⟨0.5, -0.5, 0.5⟩ ]

/-- The local `faces` of `cube`. -/
def cubeFaces : List Nat :=
  [ 0, 1, 2,
    0, 2, 3,
    4, 0, 3,
    4, 3, 7,
    5, 4, 7,
    5, 7, 6,
    1, 5, 6,
    1, 6, 2,
    4, 5, 1,
    4, 1, 0,
    2, 6, 7,
    2, 7, 3 ]

/-- Embeds `cube`: `return constructMesh(vertices, faces);`. -/
def cube (gen : GenNames) : Mesh × List Effect :=
  constructMesh gen cubeVertices cubeFaces

/-- Embeds `drawMesh`: bind the vertex array, one `glDrawElements`, unbind.
The `uint32_t` `m.faces` is passed as the `GLsizei` count. -/
def drawMesh (m : Mesh) : List Effect :=
  [ Effect.bindVertexArray m.vao,
    Effect.drawElements DrawMode.triangles (toGLsizei m.faces) GLType.unsignedInt 0,
    Effect.bindVertexArray 0 ]

end VertexBuffers

/-! ## Observations on a list of calls -/

/-- The indexed draw calls of a trace, in order. -/
def drawCalls (t : List Effect) : List Effect :=
  t.filter fun e => match e with
    | Effect.drawElements _ _ _ _ => true
    | _ => false

/-- The `(size, data)` of every `glBufferData` call of a trace on `target`. -/
def uploads (target : BufferTarget) (t : List Effect) : List (Nat × BufferSource) :=
  t.filterMap fun e => match e with
    | Effect.bufferData tg size data _ => if tg = target then some (size, data) else none
    | _ => none

/-- The `glVertexAttribPointer` calls of a trace, in order. -/
def attribPointers (t : List Effect) : List Effect :=
  t.filter fun e => match e with
    | Effect.vertexAttribPointer _ _ _ _ _ _ => true
    | _ => false

/-- Corner named by a three-letter vertex label: the first letter gives `z`
(`B` back, `-1/2`; `F` front, `+1/2`), the second `y` (`U` upper, `+1/2`;
`L` lower, `-1/2`), the third `x` (`R` right, `+1/2`; `L` left, `-1/2`). -/
def cornerOfLabel (label : String) : Option Vertex3D :=
  match label.toList with
  | [d, v, h] =>
    let z : Option ℚ := if d = 'B' then some (-1/2) else if d = 'F' then some (1/2) else none
    let y : Option ℚ := if v = 'U' then some (1/2) else if v = 'L' then some (-1/2) else none
    let x : Option ℚ := if h = 'R' then some (1/2) else if h = 'L' then some (-1/2) else none
    match x, y, z with
    | some x, some y, some z => some ⟨x, y, z⟩
    | _, _, _ => none
  | _ => none

/-- Predicate of the eight corners `(±1/2, ±1/2, ±1/2)`. -/
def IsUnitCubeCorner (v : Vertex3D) : Prop :=
  (v.x = 1/2 ∨ v.x = -1/2) ∧ (v.y = 1/2 ∨ v.y = -1/2) ∧ (v.z = 1/2 ∨ v.z = -1/2)

/-! ## Shader set-up of `Uniforms` -/

/-- Modelled from the spec: the class `ShaderProgram`, declared in
`ShaderProgram.h`, which is not among the sources. A program state is a value
of `σ`; `init` is the default-constructed program; `load` "loads vertex +
fragment shader source from fixed file paths, compiles and links" and "fails
with a runtime error when compilation/link fails"; `activate` makes the program
current. `Except.error msg` is a thrown `std::runtime_error` whose `what()` is
`msg`; the spec recognises no other kind of error, and none is modelled. -/
structure ShaderProgramOps (σ : Type) where
  init : σ
  load : σ → String → String → Except String σ
  activate : σ → Except String σ

/-- How a function call ends: it returns a value or the process exits. -/
inductive Outcome (α : Type) where
  | returned (value : α)
  | exited (code : Nat)
deriving DecidableEq, Repr

/-- What a call wrote to standard output and how it ended. -/
structure Run (α : Type) where
  stdout : String
  outcome : Outcome α
deriving DecidableEq, Repr

namespace Uniforms

/-- Embeds `perspectiveUniformColorShader`: `load` then `activate` inside
`try`; the handler prints `"ERROR: " << e.what() << std::endl` and calls
`exit(1)`. -/
def perspectiveUniformColorShader {σ : Type} (ops : ShaderProgramOps σ) : Run σ :=
  let shader := ops.init
  match ops.load shader "shaders/no_transform.vert" "shaders/uniform_color.frag" with
  | Except.error e => { stdout := "ERROR: " ++ e ++ "\n", outcome := Outcome.exited 1 }
  | Except.ok shader =>
    match ops.activate shader with
    | Except.error e => { stdout := "ERROR: " ++ e ++ "\n", outcome := Outcome.exited 1 }
    | Except.ok shader => { stdout := "", outcome := Outcome.returned shader }

end Uniforms

/-! ## Frame loops -/

namespace Uniforms

/-- The inner loop `while (window.pollEvent(ev)) { if (closed) running = false; }`.
`events` are the events the successive calls deliver before the call that
returns `false`. Gives the calls made and the new value of `running`. -/
def pollEvents (running : Bool) : List Event → List Effect × Bool
  | [] => ([Effect.pollEvent none], running)
  | ev :: rest =>
    let running := if ev = Event.closed then false else running
    let r := pollEvents running rest
    (Effect.pollEvent (some ev) :: r.1, r.2)

/-- One iteration of the body of `while (running)` in `main`: the calls made
and the value of `running` at its end. -/
def frame (obj : Mesh) (loops : Nat) (running : Bool) (events : List Event) :
    List Effect × Bool :=
  let polled := pollEvents running events
  let progress : ℚ := loops / 10000
  (polled.1 ++
    [ Effect.printFps,
      Effect.setUniformColor progress 0 0,
      Effect.printProgress progress,
      Effect.shaderActivate,
      Effect.clear [ClearBit.colorBufferBit, ClearBit.depthBufferBit] ] ++
    drawMesh obj ++
    [ Effect.windowDisplay ],
   polled.2)

/-- The loop `while (running) { ...; loops++; }` on the event batches of the
successive iterations: the trace of every iteration made, and the value of
`running` when the loop is left or the batches end. -/
def frameLoop (obj : Mesh) : Bool → Nat → List (List Event) → List (List Effect) × Bool
  | false, _, _ => ([], false)
  | true, _, [] => ([], true)
  | true, loops, events :: rest =>
    let f := frame obj loops true events
    let r := frameLoop obj f.2 (loops + 1) rest
    (f.1 :: r.1, r.2)

end Uniforms

namespace VertexBuffers

/-- The inner loop `while (const std::optional event{ window.pollEvent() })
{ if (closed) window.close(); }`. `events` are the events the successive calls
deliver before the call that returns nothing. Gives the calls made and whether
the window is open afterwards. -/
def pollEvents (isOpen : Bool) : List Event → List Effect × Bool
  | [] => ([Effect.pollEvent none], isOpen)
  | ev :: rest =>
    if ev = Event.closed then
      let r := pollEvents false rest
      (Effect.pollEvent (some ev) :: Effect.windowClose :: r.1, r.2)
    else
      let r := pollEvents isOpen rest
      (Effect.pollEvent (some ev) :: r.1, r.2)

/-- One iteration of the body of `while (window.isOpen())` in `main`; `logFps`
tells whether `LOG_FPS` is defined. -/
def frame (logFps : Bool) (obj : Mesh) (isOpen : Bool) (events : List Event) :
    List Effect × Bool :=
  let polled := pollEvents isOpen events
  (polled.1 ++
    (if logFps then [Effect.printFps] else []) ++
    [ Effect.clear [ClearBit.colorBufferBit, ClearBit.depthBufferBit] ] ++
    drawMesh obj ++
    [ Effect.windowDisplay ],
   polled.2)

/-- The loop `while (window.isOpen()) { ... }` on the event batches of the
successive iterations: the trace of every iteration made, and whether the
window is open when the loop is left or the batches end. -/
def frameLoop (logFps : Bool) (obj : Mesh) : Bool → List (List Event) →
    List (List Effect) × Bool
  | false, _ => ([], false)
  | true, [] => ([], true)
  | true, events :: rest =>
    let f := frame logFps obj true events
    let r := frameLoop logFps obj f.2 rest
    (f.1 :: r.1, r.2)

end VertexBuffers

/-- A run of `main` on finitely many event batches: the calls made before the
loop, the trace of every iteration, and the exit code (`none` while the loop
is still running when the batches end). -/
structure MainRun where
  setup : List Effect
  stdout : String
  frames : List (List Effect)
  exitCode : Option Nat
deriving DecidableEq, Repr

namespace Uniforms

/-- Embeds `main` of `Uniforms/src/main.cpp`. The calls on the shader program
that `main` makes itself are recorded as calls that complete. -/
def main {σ : Type} (gen : GenNames) (ops : ShaderProgramOps σ)
    (batches : List (List Event)) : MainRun :=
  let window := [Effect.windowCreate, Effect.loadGL, Effect.polygonModeLine]
  let obj := cube gen
  let shader := perspectiveUniformColorShader ops
  match shader.outcome with
  | Outcome.exited code =>
    { setup := window ++ obj.2, stdout := shader.stdout, frames := [], exitCode := some code }
  | Outcome.returned _ =>
    let loop := frameLoop obj.1 true 0 batches
    { setup := window ++ obj.2 ++ [Effect.shaderActivate, Effect.setUniformColor 1 0 1],
      stdout := shader.stdout,
      frames := loop.1,
      exitCode := if loop.2 then none else some 0 }

end Uniforms

namespace VertexBuffers

/-- Embeds `main` of `VertexBuffers/src/main.cpp`. The window is open once
constructed. -/
def main (logFps : Bool) (gen : GenNames) (batches : List (List Event)) : MainRun :=
  let window := [Effect.windowCreate, Effect.loadGL, Effect.polygonModeLine]
  let obj := cube gen
  let loop := frameLoop logFps obj.1 true batches
  { setup := window ++ obj.2,
    stdout := "",
    frames := loop.1,
    exitCode := if loop.2 then none else some 0 }

end VertexBuffers

/-- The steps of a frame that the specification names. -/
inductive Phase where
  | poll
  | clear
  | bindVertexArray (vao : Nat)
  | draw (mode : DrawMode) (count : Int) (type : GLType) (offset : Nat)
  | display
deriving DecidableEq, Repr

/-- The named step a call belongs to, if any: polls, clears, vertex-array
bindings, indexed draw calls with all their arguments, buffer swaps. -/
def phaseOf : Effect → Option Phase
  | Effect.pollEvent _ => some Phase.poll
  | Effect.clear _ => some Phase.clear
  | Effect.bindVertexArray vao => some (Phase.bindVertexArray vao)
  | Effect.drawElements mode count type offset => some (Phase.draw mode count type offset)
  | Effect.windowDisplay => some Phase.display
  | _ => none

/-- The named steps of a trace, in order. -/
def phases (t : List Effect) : List Phase :=
  t.filterMap phaseOf

/-- The named steps of one iteration that polled `events`: one poll for each
event and the poll that finds the queue empty, then one clear, then, with the
vertex array `vao` bound, one indexed draw of `count` indices of type unsigned
int in triangle mode from offset 0, then one buffer swap. -/
def FramePhases (vao : Nat) (count : Int) (events : List Event) (t : List Effect) : Prop :=
  phases t =
    List.replicate (events.length + 1) Phase.poll ++
      [ Phase.clear,
        Phase.bindVertexArray vao,
        Phase.draw DrawMode.triangles count GLType.unsignedInt 0,
        Phase.bindVertexArray 0,
        Phase.display ]

/-- What the frame loop owes on the event batches `batches`, `frames` being the
traces of the iterations it made: iteration `i` has the steps of `FramePhases`
on batch `i`; when batch `b` is the first to hold a close event, the loop makes
the iteration of `b` and none after it; without a close event every batch is
played. -/
def FrameLoopSpec (vao : Nat) (count : Int) (batches : List (List Event))
    (frames : List (List Effect)) : Prop :=
  (∀ (i : Nat) (t : List Effect), frames[i]? = some t →
      ∃ b, batches[i]? = some b ∧ FramePhases vao count b t) ∧
  (∀ (pre : List (List Event)) (b : List Event) (post : List (List Event)),
      batches = pre ++ b :: post → (∀ p ∈ pre, Event.closed ∉ p) → Event.closed ∈ b →
      frames.length = pre.length + 1 ∧ ∃ t, frames[pre.length]? = some t ∧
        FramePhases vao count b t) ∧
  ((∀ p ∈ batches, Event.closed ∉ p) → frames.length = batches.length)

/-- The batches a frame loop plays: those up to and including the first one
that holds a close event. -/
def played : List (List Event) → List (List Event)
  | [] => []
  | b :: rest => if Event.closed ∈ b then [b] else b :: played rest

/-! ## Geometry of an indexed triangle list -/

/-- The index triples of an index list drawn as a triangle list: consecutive
groups of three indices. -/
def triangles : List Nat → List (Nat × Nat × Nat)
  | a :: b :: c :: rest => (a, b, c) :: triangles rest
  | _ => []

/-- The three indices of a triangle. -/
def verts (t : Nat × Nat × Nat) : List Nat :=
  [t.1, t.2.1, t.2.2]

/-- The positions of the three vertices of a triangle, when all three indices
are in range of the vertex list. -/
def corners (vs : List Vertex3D) (t : Nat × Nat × Nat) :
    Option (Vertex3D × Vertex3D × Vertex3D) :=
  match vs[t.1]?, vs[t.2.1]?, vs[t.2.2]? with
  | some a, some b, some c => some (a, b, c)
  | _, _, _ => none

/-- The coordinate axes. -/
inductive Axis where
  | x
  | y
  | z
deriving DecidableEq, Repr

/-- The coordinate of a vertex on an axis. -/
def Vertex3D.coord (v : Vertex3D) : Axis → ℚ
  | Axis.x => v.x
  | Axis.y => v.y
  | Axis.z => v.z

/-- Whether the three vertices of triangle `t` all have coordinate `s` on
`axis`, that is, whether `t` lies in the plane `axis = s`. -/
def inFace (vs : List Vertex3D) (axis : Axis) (s : ℚ) (t : Nat × Nat × Nat) : Bool :=
  match corners vs t with
  | some (a, b, c) =>
    decide (a.coord axis = s) && decide (b.coord axis = s) && decide (c.coord axis = s)
  | none => false

/-- Two corners of the face plane of `axis` are the ends of a diagonal of the
face: they agree on `axis` and differ on each of the other two axes. -/
def IsFaceDiagonal (axis : Axis) (p q : Vertex3D) : Prop :=
  p.coord axis = q.coord axis ∧ ∀ ax : Axis, ax ≠ axis → p.coord ax ≠ q.coord ax

/-- Difference of two positions. -/
def Vertex3D.sub (a b : Vertex3D) : Vertex3D :=
  ⟨a.x - b.x, a.y - b.y, a.z - b.z⟩

/-- Cross product. -/
def Vertex3D.cross (u v : Vertex3D) : Vertex3D :=
  ⟨u.y * v.z - u.z * v.y, u.z * v.x - u.x * v.z, u.x * v.y - u.y * v.x⟩

/-- Dot product. -/
def Vertex3D.dot (u v : Vertex3D) : ℚ :=
  u.x * v.x + u.y * v.y + u.z * v.z

/-- The normal `(b - a) × (c - a)` of the triangle `(a, b, c)`. -/
def normal (a b c : Vertex3D) : Vertex3D :=
  (b.sub a).cross (c.sub a)

/-- The dot product of a triangle's normal with its first vertex, the vector
from the origin to the triangle. -/
def winding (vs : List Vertex3D) (t : Nat × Nat × Nat) : Option ℚ :=
  (corners vs t).map fun p => (normal p.1 p.2.1 p.2.2).dot p.1

/-! ## The cube data -/

/-- C1. In both programs the vertex list `cube` hands to `constructMesh` has 8
entries and the index list 36 entries, which is 12 triangles of 3 indices. -/
theorem cube_list_sizes (gen : GenNames) :
    Uniforms.cube gen = Uniforms.constructMesh gen Uniforms.cubeVertices Uniforms.cubeFaces ∧
    VertexBuffers.cube gen =
      VertexBuffers.constructMesh gen VertexBuffers.cubeVertices VertexBuffers.cubeFaces ∧
    Uniforms.cubeVertices.length = 8 ∧ Uniforms.cubeFaces.length = 36 ∧
    VertexBuffers.cubeVertices.length = 8 ∧ VertexBuffers.cubeFaces.length = 36 ∧
    Uniforms.cubeFaces.length % 3 = 0 ∧ Uniforms.cubeFaces.length / 3 = 12 ∧
    VertexBuffers.cubeFaces.length % 3 = 0 ∧ VertexBuffers.cubeFaces.length / 3 = 12 ∧
    (triangles Uniforms.cubeFaces).length = 12 ∧
    (triangles VertexBuffers.cubeFaces).length = 12 ∧
    uploads BufferTarget.arrayBuffer (Uniforms.cube gen).2 =
      [(96, BufferSource.vertexData Uniforms.cubeVertices)] ∧
    uploads BufferTarget.elementArrayBuffer (Uniforms.cube gen).2 =
      [(144, BufferSource.indexData Uniforms.cubeFaces)] ∧
    uploads BufferTarget.arrayBuffer (VertexBuffers.cube gen).2 =
      [(96, BufferSource.vertexData VertexBuffers.cubeVertices)] ∧
    uploads BufferTarget.elementArrayBuffer (VertexBuffers.cube gen).2 =
      [(144, BufferSource.indexData VertexBuffers.cubeFaces)] := by
  refine ⟨rfl, rfl, rfl, rfl, rfl, rfl, rfl, rfl, rfl, rfl, rfl, rfl, ?_, ?_, ?_, ?_⟩ <;> rfl

/-- C2. In both programs every index of the index list built by `cube` is at
most 7 and below the length of the vertex list built by the same call, so the
lookup of the index in the vertex list succeeds. -/
theorem cube_indices_in_range :
    (∀ i ∈ Uniforms.cubeFaces,
      0 ≤ i ∧ i ≤ 7 ∧ i < Uniforms.cubeVertices.length ∧
        (Uniforms.cubeVertices[i]?).isSome = true) ∧
    (∀ i ∈ VertexBuffers.cubeFaces,
      0 ≤ i ∧ i ≤ 7 ∧ i < VertexBuffers.cubeVertices.length ∧
        (VertexBuffers.cubeVertices[i]?).isSome = true) ∧
    Uniforms.cubeFaces.length = 36 ∧ VertexBuffers.cubeFaces.length = 36 := by
  refine ⟨?_, ?_, rfl, rfl⟩
  · intro i hi
    simp only [Uniforms.cubeFaces, List.mem_cons, List.mem_singleton, List.not_mem_nil,
      or_false] at hi
    rcases hi with h | h | h | h | h | h | h | h | h | h | h | h | h | h | h | h | h | h |
      h | h | h | h | h | h | h | h | h | h | h | h | h | h | h | h | h | h <;>
    subst h <;> simp [Uniforms.cubeVertices]
  · intro i hi
    simp only [VertexBuffers.cubeFaces, List.mem_cons, List.mem_singleton, List.not_mem_nil,
      or_false] at hi
    rcases hi with h | h | h | h | h | h | h | h | h | h | h | h | h | h | h | h | h | h |
      h | h | h | h | h | h | h | h | h | h | h | h | h | h | h | h | h | h <;>
    subst h <;> simp [VertexBuffers.cubeVertices]

/-- Membership in the vertex list of `cube` is being one of the eight corners. -/
theorem mem_cubeVertices_iff (v : Vertex3D) :
    v ∈ Uniforms.cubeVertices ↔ IsUnitCubeCorner v := by
  obtain ⟨x, y, z⟩ := v
  constructor
  · intro h
    simp only [Uniforms.cubeVertices, List.mem_cons, List.mem_singleton, List.not_mem_nil,
      or_false, Vertex3D.mk.injEq] at h
    rcases h with h | h | h | h | h | h | h | h <;>
    obtain ⟨rfl, rfl, rfl⟩ := h <;>
    norm_num [IsUnitCubeCorner]
  · rintro ⟨hx | hx, hy | hy, hz | hz⟩ <;>
    simp only at hx hy hz <;>
    subst hx hy hz <;>
    norm_num [Uniforms.cubeVertices]

/-- C7. In both programs every coordinate of every vertex built by `cube` lies
in `[-1, 1]`; the 8 vertices are pairwise distinct and are exactly the corners
`(±1/2, ±1/2, ±1/2)`, each the corner its source label names; the vertex and
index lists of the two programs are identical. -/
theorem cube_vertices_are_unit_cube_corners :
    (∀ v ∈ Uniforms.cubeVertices,
      (-1 ≤ v.x ∧ v.x ≤ 1) ∧ (-1 ≤ v.y ∧ v.y ≤ 1) ∧ (-1 ≤ v.z ∧ v.z ≤ 1)) ∧
    Uniforms.cubeVertices.length = 8 ∧
    Uniforms.cubeVertices.Nodup ∧
    (∀ v : Vertex3D, v ∈ Uniforms.cubeVertices ↔ IsUnitCubeCorner v) ∧
    Uniforms.cubeLabels.map cornerOfLabel = Uniforms.cubeVertices.map some ∧
    VertexBuffers.cubeLabels = Uniforms.cubeLabels ∧
    VertexBuffers.cubeVertices = Uniforms.cubeVertices ∧
    VertexBuffers.cubeFaces = Uniforms.cubeFaces := by
  refine ⟨?_, rfl, ?_, mem_cubeVertices_iff, ?_, rfl, rfl, rfl⟩
  · intro v hv
    obtain ⟨hx, hy, hz⟩ := (mem_cubeVertices_iff v).1 hv
    rcases hx with hx | hx <;> rcases hy with hy | hy <;> rcases hz with hz | hz <;>
    rw [hx, hy, hz] <;> norm_num
  · simp [Uniforms.cubeVertices]
    norm_num
  · simp [Uniforms.cubeLabels, Uniforms.cubeVertices, cornerOfLabel]
    norm_num

/-! ## Mesh construction and drawing -/

/-- A `uint32_t` below `2 ^ 31` reaches a `GLsizei` parameter unchanged. -/
theorem toGLsizei_of_lt (n : Nat) (h : n < 2 ^ 31) : toGLsizei n = (n : Int) := by
  have hmod : n % uint32Size = n := Nat.mod_eq_of_lt (by unfold uint32Size; omega)
  unfold toGLsizei
  rw [hmod, if_pos h]

/-- The one indexed draw call of `drawMesh` in `Uniforms`. -/
theorem uniforms_drawCalls_drawMesh (m : Mesh) :
    drawCalls (Uniforms.drawMesh m) =
      [Effect.drawElements DrawMode.triangles (toGLsizei m.faces) GLType.unsignedInt 0] :=
  rfl

/-- The one indexed draw call of `drawMesh` in `VertexBuffers`. -/
theorem vertexBuffers_drawCalls_drawMesh (m : Mesh) :
    drawCalls (VertexBuffers.drawMesh m) =
      [Effect.drawElements DrawMode.triangles (toGLsizei m.faces) GLType.unsignedInt 0] :=
  rfl

/-- The count drawn for the mesh built from an index list of `2 ^ 31` entries. -/
theorem drawCalls_constructMesh_two_pow_31 (gen : GenNames) (vertices : List Vertex3D)
    (faces : List Nat) (h : faces.length = 2 ^ 31) :
    drawCalls (Uniforms.drawMesh (Uniforms.constructMesh gen vertices faces).1) =
      [Effect.drawElements DrawMode.triangles (-2147483648) GLType.unsignedInt 0] ∧
    drawCalls (VertexBuffers.drawMesh (VertexBuffers.constructMesh gen vertices faces).1) =
      [Effect.drawElements DrawMode.triangles (-2147483648) GLType.unsignedInt 0] := by
  have hneg : toGLsizei (2 ^ 31) = -2147483648 := by decide
  have hu : (Uniforms.constructMesh gen vertices faces).1.faces = 2 ^ 31 := by
    show faces.length % uint32Size = 2 ^ 31
    rw [h]
    decide
  have hv : (VertexBuffers.constructMesh gen vertices faces).1.faces = 2 ^ 31 := by
    show faces.length % uint32Size = 2 ^ 31
    rw [h]
    decide
  constructor
  · rw [uniforms_drawCalls_drawMesh, hu, hneg]
  · rw [vertexBuffers_drawCalls_drawMesh, hv, hneg]

/-- C3, as stated, fails: for the mesh with `faces = 2 ^ 31` the count that
`glDrawElements` receives is `-2 ^ 31`, not `m.faces`; and for an index list of
`2 ^ 31` entries, shorter than `2 ^ 32`, the count drawn is `-2 ^ 31`, not the
number of indices uploaded. -/
theorem drawMesh_count_negative_from_two_pow_31 :
    drawCalls (Uniforms.drawMesh ⟨1, 2 ^ 31⟩) =
      [Effect.drawElements DrawMode.triangles (-2147483648) GLType.unsignedInt 0] ∧
    drawCalls (VertexBuffers.drawMesh ⟨1, 2 ^ 31⟩) =
      [Effect.drawElements DrawMode.triangles (-2147483648) GLType.unsignedInt 0] ∧
    ¬ (∀ m : Mesh, drawCalls (Uniforms.drawMesh m) =
        [Effect.drawElements DrawMode.triangles (m.faces : Int) GLType.unsignedInt 0]) ∧
    ¬ (∀ m : Mesh, drawCalls (VertexBuffers.drawMesh m) =
        [Effect.drawElements DrawMode.triangles (m.faces : Int) GLType.unsignedInt 0]) ∧
    (List.replicate (2 ^ 31) 0).length < 2 ^ 32 ∧
    drawCalls (Uniforms.drawMesh
        (Uniforms.constructMesh ⟨1, 1, 2⟩ [⟨0, 0, 0⟩] (List.replicate (2 ^ 31) 0)).1) =
      [Effect.drawElements DrawMode.triangles (-2147483648) GLType.unsignedInt 0] ∧
    drawCalls (VertexBuffers.drawMesh
        (VertexBuffers.constructMesh ⟨1, 1, 2⟩ [⟨0, 0, 0⟩] (List.replicate (2 ^ 31) 0)).1) =
      [Effect.drawElements DrawMode.triangles (-2147483648) GLType.unsignedInt 0] := by
  have hneg : toGLsizei (2 ^ 31) = -2147483648 := by decide
  have hlen : (List.replicate (2 ^ 31) (0 : Nat)).length = 2 ^ 31 :=
    List.length_replicate (2 ^ 31) 0
  refine ⟨?_, ?_, ?_, ?_, ?_,
    (drawCalls_constructMesh_two_pow_31 ⟨1, 1, 2⟩ [⟨0, 0, 0⟩] _ hlen).1,
    (drawCalls_constructMesh_two_pow_31 ⟨1, 1, 2⟩ [⟨0, 0, 0⟩] _ hlen).2⟩
  · rw [uniforms_drawCalls_drawMesh]
    exact congrArg (fun c => [Effect.drawElements DrawMode.triangles c GLType.unsignedInt 0])
      hneg
  · rw [vertexBuffers_drawCalls_drawMesh]
    exact congrArg (fun c => [Effect.drawElements DrawMode.triangles c GLType.unsignedInt 0])
      hneg
  · intro hall
    have h := hall ⟨1, 2 ^ 31⟩
    rw [uniforms_drawCalls_drawMesh] at h
    simp only [List.cons.injEq, Effect.drawElements.injEq, and_true, true_and] at h
    rw [hneg] at h
    revert h
    decide
  · intro hall
    have h := hall ⟨1, 2 ^ 31⟩
    rw [vertexBuffers_drawCalls_drawMesh] at h
    simp only [List.cons.injEq, Effect.drawElements.injEq, and_true, true_and] at h
    rw [hneg] at h
    revert h
    decide
  · rw [hlen]
    decide

/-- C3, amended. For every mesh with `faces` below `2 ^ 31`, `drawMesh` makes
exactly one indexed draw call: mode triangles, count `m.faces`, index type
unsigned int, offset 0. For every index list shorter than `2 ^ 32`,
`constructMesh` returns a mesh whose `faces` is the length of the list; so for
every index list shorter than `2 ^ 31` the count drawn is the number of
indices uploaded to the index buffer; for the cube it is 36. -/
theorem drawMesh_count_matches_upload (m : Mesh) (gen : GenNames)
    (vertices : List Vertex3D) (faces : List Nat) (hm : m.faces < 2 ^ 31)
    (h : faces.length < 2 ^ 32) :
    drawCalls (Uniforms.drawMesh m) =
      [Effect.drawElements DrawMode.triangles (m.faces : Int) GLType.unsignedInt 0] ∧
    drawCalls (VertexBuffers.drawMesh m) =
      [Effect.drawElements DrawMode.triangles (m.faces : Int) GLType.unsignedInt 0] ∧
    (Uniforms.constructMesh gen vertices faces).1.faces = faces.length ∧
    (VertexBuffers.constructMesh gen vertices faces).1.faces = faces.length ∧
    (uploads BufferTarget.elementArrayBuffer (Uniforms.constructMesh gen vertices faces).2).map
      (fun u => u.2) = [BufferSource.indexData faces] ∧
    (uploads BufferTarget.elementArrayBuffer
      (VertexBuffers.constructMesh gen vertices faces).2).map
      (fun u => u.2) = [BufferSource.indexData faces] ∧
    (faces.length < 2 ^ 31 →
      drawCalls (Uniforms.drawMesh (Uniforms.constructMesh gen vertices faces).1) =
        [Effect.drawElements DrawMode.triangles (faces.length : Int) GLType.unsignedInt 0] ∧
      drawCalls (VertexBuffers.drawMesh (VertexBuffers.constructMesh gen vertices faces).1) =
        [Effect.drawElements DrawMode.triangles (faces.length : Int) GLType.unsignedInt 0]) ∧
    drawCalls (Uniforms.drawMesh (Uniforms.cube gen).1) =
      [Effect.drawElements DrawMode.triangles 36 GLType.unsignedInt 0] ∧
    drawCalls (VertexBuffers.drawMesh (VertexBuffers.cube gen).1) =
      [Effect.drawElements DrawMode.triangles 36 GLType.unsignedInt 0] := by
  have hu : (Uniforms.constructMesh gen vertices faces).1.faces = faces.length := by
    simp only [Uniforms.constructMesh, uint32Size]
    exact Nat.mod_eq_of_lt h
  have hv : (VertexBuffers.constructMesh gen vertices faces).1.faces = faces.length := by
    simp only [VertexBuffers.constructMesh, uint32Size]
    exact Nat.mod_eq_of_lt h
  refine ⟨?_, ?_, hu, hv, rfl, rfl, ?_, ?_, ?_⟩
  · rw [uniforms_drawCalls_drawMesh, toGLsizei_of_lt m.faces hm]
  · rw [vertexBuffers_drawCalls_drawMesh, toGLsizei_of_lt m.faces hm]
  · intro h31
    constructor
    · rw [uniforms_drawCalls_drawMesh, hu, toGLsizei_of_lt faces.length h31]
    · rw [vertexBuffers_drawCalls_drawMesh, hv, toGLsizei_of_lt faces.length h31]
  · rw [uniforms_drawCalls_drawMesh]
    exact congrArg (fun c => [Effect.drawElements DrawMode.triangles c GLType.unsignedInt 0])
      (toGLsizei_of_lt 36 (by decide))
  · rw [vertexBuffers_drawCalls_drawMesh]
    exact congrArg (fun c => [Effect.drawElements DrawMode.triangles c GLType.unsignedInt 0])
      (toGLsizei_of_lt 36 (by decide))

/-- Witness of the amended C3 at a mesh with handle 5 and 9 indices, and at the
lists of the cube. -/
theorem drawMesh_count_matches_upload_witness :
    (9 < 2 ^ 31 ∧ Uniforms.cubeFaces.length < 2 ^ 32 ∧ Uniforms.cubeFaces.length < 2 ^ 31) ∧
    drawCalls (Uniforms.drawMesh ⟨5, 9⟩) =
      [Effect.drawElements DrawMode.triangles 9 GLType.unsignedInt 0] ∧
    (Uniforms.constructMesh ⟨1, 1, 2⟩ Uniforms.cubeVertices Uniforms.cubeFaces).1.faces
      = Uniforms.cubeFaces.length ∧
    drawCalls (Uniforms.drawMesh
        (Uniforms.constructMesh ⟨1, 1, 2⟩ Uniforms.cubeVertices Uniforms.cubeFaces).1) =
      [Effect.drawElements DrawMode.triangles 36 GLType.unsignedInt 0] ∧
    drawCalls (VertexBuffers.drawMesh
        (VertexBuffers.constructMesh ⟨1, 1, 2⟩ Uniforms.cubeVertices Uniforms.cubeFaces).1) =
      [Effect.drawElements DrawMode.triangles 36 GLType.unsignedInt 0] :=
  have h := drawMesh_count_matches_upload ⟨5, 9⟩ ⟨1, 1, 2⟩ Uniforms.cubeVertices
    Uniforms.cubeFaces (by decide) (by decide)
  ⟨⟨by decide, by decide, by decide⟩, h.1, h.2.2.1,
    (h.2.2.2.2.2.2.1 (by decide)).1, (h.2.2.2.2.2.2.1 (by decide)).2⟩

/-- C5, as stated, fails: the `faces` field of the cube's mesh is 36, not 12,
so it is not `faces.size() / 3` for every index list of length a multiple
of 3, in either program. -/
theorem mesh_faces_is_not_triangle_count :
    (Uniforms.cube ⟨1, 1, 2⟩).1.faces = 36 ∧
    (VertexBuffers.cube ⟨1, 1, 2⟩).1.faces = 36 ∧
    ¬ (∀ (gen : GenNames) (vertices : List Vertex3D) (faces : List Nat),
        faces.length % 3 = 0 →
        (Uniforms.constructMesh gen vertices faces).1.faces = faces.length / 3) ∧
    ¬ (∀ (gen : GenNames) (vertices : List Vertex3D) (faces : List Nat),
        faces.length % 3 = 0 →
        (VertexBuffers.constructMesh gen vertices faces).1.faces = faces.length / 3) := by
  refine ⟨rfl, rfl, ?_, ?_⟩
  · intro h
    have h36 := h ⟨1, 1, 2⟩ Uniforms.cubeVertices Uniforms.cubeFaces rfl
    revert h36
    decide
  · intro h
    have h36 := h ⟨1, 1, 2⟩ VertexBuffers.cubeVertices VertexBuffers.cubeFaces rfl
    revert h36
    decide

/-- C5, amended. The second field of the mesh returned by `constructMesh` is
the mesh's index count: for every index list whose length is a multiple of 3
and below `2 ^ 32`, `m.faces` is the length of the list, three times the number
of triangles; for the cube it is 36. -/
theorem mesh_faces_is_index_count (gen : GenNames) (vertices : List Vertex3D)
    (faces : List Nat) (h3 : faces.length % 3 = 0) (h : faces.length < 2 ^ 32) :
    (Uniforms.constructMesh gen vertices faces).1.faces = 3 * (faces.length / 3) ∧
    (VertexBuffers.constructMesh gen vertices faces).1.faces = 3 * (faces.length / 3) ∧
    (Uniforms.constructMesh gen vertices faces).1.faces = faces.length ∧
    (VertexBuffers.constructMesh gen vertices faces).1.faces = faces.length ∧
    (Uniforms.cube gen).1.faces = 36 ∧ (VertexBuffers.cube gen).1.faces = 36 := by
  have hu : (Uniforms.constructMesh gen vertices faces).1.faces = faces.length := by
    simp only [Uniforms.constructMesh, uint32Size]
    exact Nat.mod_eq_of_lt h
  have hv : (VertexBuffers.constructMesh gen vertices faces).1.faces = faces.length := by
    simp only [VertexBuffers.constructMesh, uint32Size]
    exact Nat.mod_eq_of_lt h
  have hl : 3 * (faces.length / 3) = faces.length := by omega
  exact ⟨by rw [hu, hl], by rw [hv, hl], hu, hv, rfl, rfl⟩

/-- Witness of the amended C5 at a square of two triangles: six indices. -/
theorem mesh_faces_is_index_count_witness :
    ([0, 1, 2, 0, 2, 3] : List Nat).length % 3 = 0 ∧
    ([0, 1, 2, 0, 2, 3] : List Nat).length < 2 ^ 32 ∧
    (Uniforms.constructMesh ⟨1, 1, 2⟩ [⟨0, 0, 0⟩, ⟨1, 0, 0⟩, ⟨1, 1, 0⟩, ⟨0, 1, 0⟩]
      [0, 1, 2, 0, 2, 3]).1.faces = 3 * 2 ∧
    (VertexBuffers.constructMesh ⟨1, 1, 2⟩ [⟨0, 0, 0⟩, ⟨1, 0, 0⟩, ⟨1, 1, 0⟩, ⟨0, 1, 0⟩]
      [0, 1, 2, 0, 2, 3]).1.faces = 3 * 2 :=
  have h := mesh_faces_is_index_count ⟨1, 1, 2⟩ [⟨0, 0, 0⟩, ⟨1, 0, 0⟩, ⟨1, 1, 0⟩, ⟨0, 1, 0⟩]
    [0, 1, 2, 0, 2, 3] (by decide) (by decide)
  ⟨by decide, by decide, h.1, h.2.1⟩

/-- C6. For every vertex list and index list (of byte sizes that fit a
`size_t`), `constructMesh` makes exactly one vertex-buffer upload, of
`vertices.size() * 12` bytes, and exactly one index-buffer upload, of
`faces.size() * 4` bytes (96 and 144 for the cube), and declares attribute 0
once, as 3 floats at offset 0 with stride 12, the size of one vertex; the
stride `3 * sizeof(float)` of `Uniforms` equals the stride `sizeof(Vertex3D)`
of `VertexBuffers`. -/
theorem constructMesh_uploads_once (gen : GenNames) (vertices : List Vertex3D)
    (faces : List Nat) (hv : vertices.length * 12 < 2 ^ 64) (hf : faces.length * 4 < 2 ^ 64) :
    uploads BufferTarget.arrayBuffer (Uniforms.constructMesh gen vertices faces).2 =
      [(vertices.length * 12, BufferSource.vertexData vertices)] ∧
    uploads BufferTarget.elementArrayBuffer (Uniforms.constructMesh gen vertices faces).2 =
      [(faces.length * 4, BufferSource.indexData faces)] ∧
    attribPointers (Uniforms.constructMesh gen vertices faces).2 =
      [Effect.vertexAttribPointer 0 3 GLType.float false 12 0] ∧
    uploads BufferTarget.arrayBuffer (VertexBuffers.constructMesh gen vertices faces).2 =
      [(vertices.length * 12, BufferSource.vertexData vertices)] ∧
    uploads BufferTarget.elementArrayBuffer (VertexBuffers.constructMesh gen vertices faces).2 =
      [(faces.length * 4, BufferSource.indexData faces)] ∧
    attribPointers (VertexBuffers.constructMesh gen vertices faces).2 =
      [Effect.vertexAttribPointer 0 3 GLType.float false 12 0] ∧
    sizeofVertex3D = 12 ∧ 3 * sizeofFloat % sizeTSize = sizeofVertex3D ∧
    uploads BufferTarget.arrayBuffer (Uniforms.cube gen).2 =
      [(96, BufferSource.vertexData Uniforms.cubeVertices)] ∧
    uploads BufferTarget.elementArrayBuffer (Uniforms.cube gen).2 =
      [(144, BufferSource.indexData Uniforms.cubeFaces)] ∧
    uploads BufferTarget.arrayBuffer (VertexBuffers.cube gen).2 =
      [(96, BufferSource.vertexData VertexBuffers.cubeVertices)] ∧
    uploads BufferTarget.elementArrayBuffer (VertexBuffers.cube gen).2 =
      [(144, BufferSource.indexData VertexBuffers.cubeFaces)] := by
  have hv' : vertices.length * sizeofVertex3D % sizeTSize = vertices.length * 12 :=
    Nat.mod_eq_of_lt hv
  have hf' : faces.length * sizeofUint32 % sizeTSize = faces.length * 4 :=
    Nat.mod_eq_of_lt hf
  refine ⟨?_, ?_, rfl, ?_, ?_, rfl, rfl, rfl, rfl, rfl, rfl, rfl⟩
  · simp [uploads, Uniforms.constructMesh, hv']
  · simp [uploads, Uniforms.constructMesh, hf']
  · simp [uploads, VertexBuffers.constructMesh, hv']
  · simp [uploads, VertexBuffers.constructMesh, hf']

/-- Witness of C6 at one triangle: 3 vertices (36 bytes), 3 indices (12 bytes). -/
theorem constructMesh_uploads_once_witness :
    3 * 12 < 2 ^ 64 ∧ 3 * 4 < 2 ^ 64 ∧
    uploads BufferTarget.arrayBuffer
      (Uniforms.constructMesh ⟨1, 1, 2⟩ [⟨0, 0, 0⟩, ⟨1, 0, 0⟩, ⟨0, 1, 0⟩] [0, 1, 2]).2 =
      [(3 * 12, BufferSource.vertexData [⟨0, 0, 0⟩, ⟨1, 0, 0⟩, ⟨0, 1, 0⟩])] ∧
    uploads BufferTarget.elementArrayBuffer
      (VertexBuffers.constructMesh ⟨1, 1, 2⟩ [⟨0, 0, 0⟩, ⟨1, 0, 0⟩, ⟨0, 1, 0⟩] [0, 1, 2]).2 =
      [(3 * 4, BufferSource.indexData [0, 1, 2])] :=
  have h := constructMesh_uploads_once ⟨1, 1, 2⟩ [⟨0, 0, 0⟩, ⟨1, 0, 0⟩, ⟨0, 1, 0⟩] [0, 1, 2]
    (by decide) (by decide)
  ⟨by decide, by decide, h.1, h.2.2.2.2.1⟩

/-! ## Shader set-up -/

/-- C4. `perspectiveUniformColorShader` exits the process with code 1 exactly
when `load` or, after it, `activate` raises a runtime error; it then has
printed `ERROR: ` followed by the error's message and a line end. When neither
raises, it prints nothing, does not exit and returns the loaded program. -/
theorem perspectiveUniformColorShader_exits_iff_error {σ : Type}
    (ops : ShaderProgramOps σ) :
    ((Uniforms.perspectiveUniformColorShader ops).outcome = Outcome.exited 1 ↔
      ((∃ e, ops.load ops.init "shaders/no_transform.vert" "shaders/uniform_color.frag"
          = Except.error e) ∨
       (∃ s e, ops.load ops.init "shaders/no_transform.vert" "shaders/uniform_color.frag"
          = Except.ok s ∧ ops.activate s = Except.error e))) ∧
    (∀ code, (Uniforms.perspectiveUniformColorShader ops).outcome = Outcome.exited code →
      code = 1) ∧
    (∀ e, ops.load ops.init "shaders/no_transform.vert" "shaders/uniform_color.frag"
        = Except.error e →
      Uniforms.perspectiveUniformColorShader ops =
        { stdout := "ERROR: " ++ e ++ "\n", outcome := Outcome.exited 1 }) ∧
    (∀ s e, ops.load ops.init "shaders/no_transform.vert" "shaders/uniform_color.frag"
        = Except.ok s → ops.activate s = Except.error e →
      Uniforms.perspectiveUniformColorShader ops =
        { stdout := "ERROR: " ++ e ++ "\n", outcome := Outcome.exited 1 }) ∧
    (∀ s s', ops.load ops.init "shaders/no_transform.vert" "shaders/uniform_color.frag"
        = Except.ok s → ops.activate s = Except.ok s' →
      Uniforms.perspectiveUniformColorShader ops =
        { stdout := "", outcome := Outcome.returned s' }) := by
  unfold Uniforms.perspectiveUniformColorShader
  cases hl : ops.load ops.init "shaders/no_transform.vert" "shaders/uniform_color.frag" with
  | error e => simp [hl]
  | ok s =>
    cases ha : ops.activate s with
    | error e =>
      simp only [hl, ha]
      refine ⟨?_, ?_, ?_, ?_, ?_⟩
      · exact ⟨fun _ => Or.inr ⟨s, e, rfl, ha⟩, fun _ => trivial⟩
      · intro code h
        cases h
        rfl
      · intro e1 h
        cases h
      · intro s1 e1 h1 h2
        cases h1
        rw [ha] at h2
        cases h2
        rfl
      · intro s1 s2 h1 h2
        cases h1
        rw [ha] at h2
        cases h2
    | ok s' =>
      simp only [hl, ha]
      refine ⟨?_, ?_, ?_, ?_, ?_⟩
      · constructor
        · intro h
          cases h
        · rintro (⟨e1, h⟩ | ⟨s1, e1, h1, h2⟩)
          · cases h
          · cases h1
            rw [ha] at h2
            cases h2
      · intro code h
        cases h
      · intro e1 h
        cases h
      · intro s1 e1 h1 h2
        cases h1
        rw [ha] at h2
        cases h2
      · intro s1 s2 h1 h2
        cases h1
        rw [ha] at h2
        cases h2
        rfl

/-- Witness of C4: a program whose `load` fails with `compile failed` makes the
process print `ERROR: compile failed` and exit with code 1; one whose `load`
and `activate` succeed is returned with nothing printed. -/
theorem perspectiveUniformColorShader_exits_iff_error_witness :
    Uniforms.perspectiveUniformColorShader
        { init := 0, load := fun _ _ _ => Except.error "compile failed",
          activate := fun s => Except.ok s } =
      { stdout := "ERROR: compile failed\n", outcome := Outcome.exited 1 } ∧
    Uniforms.perspectiveUniformColorShader
        { init := 0, load := fun _ _ _ => Except.ok 7,
          activate := fun s => Except.ok s } =
      { stdout := "", outcome := Outcome.returned 7 } :=
  ⟨(perspectiveUniformColorShader_exits_iff_error
      { init := 0, load := fun _ _ _ => Except.error "compile failed",
        activate := fun s => Except.ok s }).2.2.1 "compile failed" rfl,
   (perspectiveUniformColorShader_exits_iff_error
      { init := 0, load := fun _ _ _ => Except.ok 7,
        activate := fun s => Except.ok s }).2.2.2.2 7 7 rfl rfl⟩

/-! ## Frame loops -/

/-- The named steps of a concatenation. -/
theorem phases_append (s t : List Effect) : phases (s ++ t) = phases s ++ phases t := by
  simp [phases, List.filterMap_append]

/-- Polling in `Uniforms` makes one poll for each event and one more. -/
theorem uniforms_phases_pollEvents (running : Bool) (events : List Event) :
    phases (Uniforms.pollEvents running events).1 =
      List.replicate (events.length + 1) Phase.poll := by
  induction events generalizing running with
  | nil => rfl
  | cons ev rest ih =>
    simp only [Uniforms.pollEvents, List.length_cons]
    rw [List.replicate_succ, ← ih]
    rfl

/-- After polling in `Uniforms`, `running` holds iff it held before and no
close event was delivered. -/
theorem uniforms_running_pollEvents (running : Bool) (events : List Event) :
    (Uniforms.pollEvents running events).2 = (running && decide (Event.closed ∉ events)) := by
  induction events generalizing running with
  | nil => simp [Uniforms.pollEvents]
  | cons ev rest ih =>
    simp only [Uniforms.pollEvents, ih]
    by_cases h : ev = Event.closed
    · simp [h]
    · have h' : ¬ Event.closed = ev := fun e => h e.symm
      simp [h, h']

/-- Polling in `VertexBuffers` makes one poll for each event and one more. -/
theorem vertexBuffers_phases_pollEvents (isOpen : Bool) (events : List Event) :
    phases (VertexBuffers.pollEvents isOpen events).1 =
      List.replicate (events.length + 1) Phase.poll := by
  induction events generalizing isOpen with
  | nil => rfl
  | cons ev rest ih =>
    simp only [VertexBuffers.pollEvents, List.length_cons]
    rw [List.replicate_succ]
    by_cases h : ev = Event.closed
    · simp only [h, if_true]
      rw [← ih false]
      rfl
    · simp only [h, if_false]
      rw [← ih isOpen]
      rfl

/-- After polling in `VertexBuffers`, the window is open iff it was before and
no close event was delivered. -/
theorem vertexBuffers_isOpen_pollEvents (isOpen : Bool) (events : List Event) :
    (VertexBuffers.pollEvents isOpen events).2 =
      (isOpen && decide (Event.closed ∉ events)) := by
  induction events generalizing isOpen with
  | nil => simp [VertexBuffers.pollEvents]
  | cons ev rest ih =>
    simp only [VertexBuffers.pollEvents]
    by_cases h : ev = Event.closed
    · simp [h, ih]
    · have h' : ¬ Event.closed = ev := fun e => h e.symm
      simp [h, h', ih]

/-- The named steps of one iteration of `Uniforms`. -/
theorem uniforms_framePhases_frame (obj : Mesh) (loops : Nat) (running : Bool)
    (events : List Event) :
    FramePhases obj.vao (toGLsizei obj.faces) events
      (Uniforms.frame obj loops running events).1 := by
  simp only [FramePhases, Uniforms.frame, phases_append, uniforms_phases_pollEvents,
    List.append_assoc]
  rfl

/-- The named steps of one iteration of `VertexBuffers`. -/
theorem vertexBuffers_framePhases_frame (logFps : Bool) (obj : Mesh) (isOpen : Bool)
    (events : List Event) :
    FramePhases obj.vao (toGLsizei obj.faces) events
      (VertexBuffers.frame logFps obj isOpen events).1 := by
  simp only [FramePhases, VertexBuffers.frame, phases_append,
    vertexBuffers_phases_pollEvents, List.append_assoc]
  cases logFps <;> rfl

/-- A loop whose iterations match the played batches one to one, each with the
steps of `FramePhases`, meets `FrameLoopSpec`. -/
theorem frameLoopSpec_of_played (vao : Nat) (count : Int) (batches : List (List Event))
    (frames : List (List Effect))
    (h : List.Forall₂ (FramePhases vao count) (played batches) frames) :
    FrameLoopSpec vao count batches frames := by
  induction batches generalizing frames with
  | nil =>
    simp only [played, List.forall₂_nil_left_iff] at h
    subst h
    refine ⟨?_, ?_, ?_⟩
    · intro i t ht
      simp at ht
    · intro pre b post hb
      simp at hb
    · intro _
      rfl
  | cons b0 rest ih =>
    by_cases hc : Event.closed ∈ b0
    · simp only [played, hc, if_true, List.forall₂_cons_left_iff,
        List.forall₂_nil_left_iff] at h
      obtain ⟨t0, frames', h0, hnil, rfl⟩ := h
      subst hnil
      refine ⟨?_, ?_, ?_⟩
      · intro i t ht
        cases i with
        | zero =>
          simp only [List.getElem?_cons_zero, Option.some.injEq] at ht
          subst ht
          exact ⟨b0, List.getElem?_cons_zero, h0⟩
        | succ n => simp at ht
      · intro pre b post hb hpre hcb
        cases pre with
        | nil =>
          simp only [List.nil_append, List.cons.injEq] at hb
          obtain ⟨rfl, _⟩ := hb
          exact ⟨rfl, t0, rfl, h0⟩
        | cons p pre' =>
          simp only [List.cons_append, List.cons.injEq] at hb
          obtain ⟨rfl, _⟩ := hb
          exact absurd hc (hpre _ (List.mem_cons_self _ _))
      · intro hall
        exact absurd hc (hall _ (List.mem_cons_self _ _))
    · simp only [played, hc, if_false, List.forall₂_cons_left_iff] at h
      obtain ⟨t0, frames', h0, hrest, rfl⟩ := h
      obtain ⟨ih1, ih2, ih3⟩ := ih frames' hrest
      refine ⟨?_, ?_, ?_⟩
      · intro i t ht
        cases i with
        | zero =>
          simp only [List.getElem?_cons_zero, Option.some.injEq] at ht
          subst ht
          exact ⟨b0, List.getElem?_cons_zero, h0⟩
        | succ n =>
          simp only [List.getElem?_cons_succ] at ht ⊢
          exact ih1 n t ht
      · intro pre b post hb hpre hcb
        cases pre with
        | nil =>
          simp only [List.nil_append, List.cons.injEq] at hb
          obtain ⟨rfl, _⟩ := hb
          exact absurd hcb hc
        | cons p pre' =>
          simp only [List.cons_append, List.cons.injEq] at hb
          obtain ⟨rfl, hb'⟩ := hb
          obtain ⟨hlen, t, ht, hphase⟩ :=
            ih2 pre' b post hb' (fun q hq => hpre q (List.mem_cons_of_mem _ hq)) hcb
          refine ⟨?_, t, ?_, hphase⟩
          · simp [hlen]
          · simpa using ht
      · intro hall
        have := ih3 (fun q hq => hall q (List.mem_cons_of_mem _ hq))
        simp [this]

/-- The iterations of the `Uniforms` loop match the played batches. -/
theorem uniforms_frameLoop_played (obj : Mesh) (loops : Nat) (batches : List (List Event)) :
    List.Forall₂ (FramePhases obj.vao (toGLsizei obj.faces)) (played batches)
      (Uniforms.frameLoop obj true loops batches).1 := by
  induction batches generalizing loops with
  | nil => simp [played, Uniforms.frameLoop]
  | cons b rest ih =>
    have hrun : (Uniforms.frame obj loops true b).2 = decide (Event.closed ∉ b) := by
      simp [Uniforms.frame, uniforms_running_pollEvents]
    by_cases hc : Event.closed ∈ b
    · have hfalse : (Uniforms.frame obj loops true b).2 = false := by
        rw [hrun]; simp [hc]
      simp only [played, hc, if_true, Uniforms.frameLoop, hfalse]
      exact List.Forall₂.cons (uniforms_framePhases_frame obj loops true b) List.Forall₂.nil
    · have htrue : (Uniforms.frame obj loops true b).2 = true := by
        rw [hrun]; simp [hc]
      simp only [played, hc, if_false, Uniforms.frameLoop, htrue]
      exact List.Forall₂.cons (uniforms_framePhases_frame obj loops true b) (ih (loops + 1))

/-- The iterations of the `VertexBuffers` loop match the played batches. -/
theorem vertexBuffers_frameLoop_played (logFps : Bool) (obj : Mesh)
    (batches : List (List Event)) :
    List.Forall₂ (FramePhases obj.vao (toGLsizei obj.faces)) (played batches)
      (VertexBuffers.frameLoop logFps obj true batches).1 := by
  induction batches with
  | nil => simp [played, VertexBuffers.frameLoop]
  | cons b rest ih =>
    have hrun : (VertexBuffers.frame logFps obj true b).2 = decide (Event.closed ∉ b) := by
      simp [VertexBuffers.frame, vertexBuffers_isOpen_pollEvents]
    by_cases hc : Event.closed ∈ b
    · have hfalse : (VertexBuffers.frame logFps obj true b).2 = false := by
        rw [hrun]; simp [hc]
      simp only [played, hc, if_true, VertexBuffers.frameLoop, hfalse]
      exact List.Forall₂.cons (vertexBuffers_framePhases_frame logFps obj true b)
        List.Forall₂.nil
    · have htrue : (VertexBuffers.frame logFps obj true b).2 = true := by
        rw [hrun]; simp [hc]
      simp only [played, hc, if_false, VertexBuffers.frameLoop, htrue]
      exact List.Forall₂.cons (vertexBuffers_framePhases_frame logFps obj true b) ih

/-- The only exit code of `perspectiveUniformColorShader` is 1. -/
theorem uniforms_exit_code_eq_one {σ : Type} (ops : ShaderProgramOps σ) (code : Nat)
    (h : (Uniforms.perspectiveUniformColorShader ops).outcome = Outcome.exited code) :
    code = 1 := by
  unfold Uniforms.perspectiveUniformColorShader at h
  cases hl : ops.load ops.init "shaders/no_transform.vert" "shaders/uniform_color.frag" with
  | error e =>
    simp only [hl] at h
    cases h
    rfl
  | ok s =>
    cases ha : ops.activate s with
    | error e =>
      simp only [hl, ha] at h
      cases h
      rfl
    | ok s' =>
      simp only [hl, ha] at h
      cases h

/-- The frame loop of `Uniforms` on the cube mesh meets `FrameLoopSpec`. -/
theorem uniforms_frameLoop_spec (gen : GenNames) (batches : List (List Event)) :
    FrameLoopSpec gen.vao 36 batches
      (Uniforms.frameLoop (Uniforms.cube gen).1 true 0 batches).1 :=
  frameLoopSpec_of_played gen.vao 36 batches _
    (uniforms_frameLoop_played (Uniforms.cube gen).1 0 batches)

/-- The frame loop of `VertexBuffers` on the cube mesh meets `FrameLoopSpec`. -/
theorem vertexBuffers_frameLoop_spec (logFps : Bool) (gen : GenNames)
    (batches : List (List Event)) :
    FrameLoopSpec gen.vao 36 batches
      (VertexBuffers.frameLoop logFps (VertexBuffers.cube gen).1 true batches).1 :=
  frameLoopSpec_of_played gen.vao 36 batches _
    (vertexBuffers_frameLoop_played logFps (VertexBuffers.cube gen).1 batches)

/-- C8. In both programs every iteration of the frame loop of `main` makes, in
this order, the event polls, then exactly one clear, then exactly one indexed
draw call (from `drawMesh` on the cube mesh: its vertex array bound, triangle
mode, count 36, unsigned int, offset 0), then exactly one buffer swap,
whatever events are polled; the iteration that receives a close event is made
in full and no iteration follows it. In `Uniforms` the loop is the one `main`
runs when the shader set-up returns; when the set-up exits, no iteration is
made. -/
theorem frame_loop_clear_draw_display {σ : Type} (gen : GenNames) (ops : ShaderProgramOps σ)
    (logFps : Bool) (batches : List (List Event)) :
    FrameLoopSpec gen.vao 36 batches
      (Uniforms.frameLoop (Uniforms.cube gen).1 true 0 batches).1 ∧
    FrameLoopSpec gen.vao 36 batches
      (VertexBuffers.frameLoop logFps (VertexBuffers.cube gen).1 true batches).1 ∧
    FrameLoopSpec gen.vao 36 batches (VertexBuffers.main logFps gen batches).frames ∧
    (∀ s, (Uniforms.perspectiveUniformColorShader ops).outcome = Outcome.returned s →
      FrameLoopSpec gen.vao 36 batches (Uniforms.main gen ops batches).frames) ∧
    (∀ code, (Uniforms.perspectiveUniformColorShader ops).outcome = Outcome.exited code →
      (Uniforms.main gen ops batches).frames = [] ∧
        (Uniforms.main gen ops batches).exitCode = some 1) ∧
    (VertexBuffers.main logFps gen batches).frames =
      (VertexBuffers.frameLoop logFps (VertexBuffers.cube gen).1 true batches).1 ∧
    (∀ s, (Uniforms.perspectiveUniformColorShader ops).outcome = Outcome.returned s →
      (Uniforms.main gen ops batches).frames =
        (Uniforms.frameLoop (Uniforms.cube gen).1 true 0 batches).1) ∧
    (Uniforms.cube gen).1 = ⟨gen.vao, 36⟩ ∧ (VertexBuffers.cube gen).1 = ⟨gen.vao, 36⟩ ∧
    (∀ (loops : Nat) (running : Bool) (events : List Event),
      ∃ before, (Uniforms.frame (Uniforms.cube gen).1 loops running events).1 =
        before ++ Uniforms.drawMesh (Uniforms.cube gen).1 ++ [Effect.windowDisplay]) ∧
    (∀ (isOpen : Bool) (events : List Event),
      ∃ before, (VertexBuffers.frame logFps (VertexBuffers.cube gen).1 isOpen events).1 =
        before ++ VertexBuffers.drawMesh (VertexBuffers.cube gen).1 ++
          [Effect.windowDisplay]) := by
  have hmain : ∀ s, (Uniforms.perspectiveUniformColorShader ops).outcome = Outcome.returned s →
      (Uniforms.main gen ops batches).frames =
        (Uniforms.frameLoop (Uniforms.cube gen).1 true 0 batches).1 := by
    intro s hs
    simp only [Uniforms.main, hs]
  refine ⟨uniforms_frameLoop_spec gen batches, vertexBuffers_frameLoop_spec logFps gen batches,
    vertexBuffers_frameLoop_spec logFps gen batches, ?_, ?_, rfl, hmain, rfl, rfl, ?_, ?_⟩
  · intro s hs
    rw [hmain s hs]
    exact uniforms_frameLoop_spec gen batches
  · intro code hc
    have h1 := uniforms_exit_code_eq_one ops code hc
    subst h1
    simp only [Uniforms.main, hc]
    exact ⟨trivial, trivial⟩
  · intro loops running events
    exact ⟨_, rfl⟩
  · intro isOpen events
    exact ⟨_, rfl⟩

/-- Witness of C8: on three batches of which the second holds a close event,
`main` of both programs makes two iterations, each with its polls, one clear,
one draw of 36 indices on the cube's vertex array and one swap, and then
returns 0. -/
theorem frame_loop_clear_draw_display_witness :
    ((VertexBuffers.main false ⟨1, 1, 2⟩
        [[Event.other 1], [Event.closed, Event.other 2], [Event.other 3]]).frames.length = 2 ∧
      (Uniforms.main ⟨1, 1, 2⟩
        { init := 0, load := fun s _ _ => Except.ok s, activate := fun s => Except.ok s }
        [[Event.other 1], [Event.closed, Event.other 2], [Event.other 3]]).frames.length = 2) ∧
    (Uniforms.main ⟨1, 1, 2⟩
        { init := 0, load := fun s _ _ => Except.ok s, activate := fun s => Except.ok s }
        [[Event.other 1], [Event.closed, Event.other 2], [Event.other 3]]).frames.map phases =
      [ [ Phase.poll, Phase.poll, Phase.clear, Phase.bindVertexArray 1,
          Phase.draw DrawMode.triangles 36 GLType.unsignedInt 0, Phase.bindVertexArray 0,
          Phase.display ],
        [ Phase.poll, Phase.poll, Phase.poll, Phase.clear, Phase.bindVertexArray 1,
          Phase.draw DrawMode.triangles 36 GLType.unsignedInt 0, Phase.bindVertexArray 0,
          Phase.display ] ] ∧
    (VertexBuffers.main false ⟨1, 1, 2⟩
        [[Event.other 1], [Event.closed, Event.other 2], [Event.other 3]]).frames.map phases =
      [ [ Phase.poll, Phase.poll, Phase.clear, Phase.bindVertexArray 1,
          Phase.draw DrawMode.triangles 36 GLType.unsignedInt 0, Phase.bindVertexArray 0,
          Phase.display ],
        [ Phase.poll, Phase.poll, Phase.poll, Phase.clear, Phase.bindVertexArray 1,
          Phase.draw DrawMode.triangles 36 GLType.unsignedInt 0, Phase.bindVertexArray 0,
          Phase.display ] ] ∧
    (Uniforms.main ⟨1, 1, 2⟩
        { init := 0, load := fun s _ _ => Except.ok s, activate := fun s => Except.ok s }
        [[Event.other 1], [Event.closed, Event.other 2], [Event.other 3]]).exitCode = some 0 ∧
    (Uniforms.main ⟨1, 1, 2⟩
        { init := 0, load := fun _ _ _ => Except.error "compile failed",
          activate := fun s => Except.ok s }
        [[Event.other 1], [Event.closed, Event.other 2], [Event.other 3]]).frames = [] := by
  refine ⟨?_, by decide, by decide, by decide, by decide⟩
  obtain ⟨_, _, hv, hu, _⟩ := frame_loop_clear_draw_display ⟨1, 1, 2⟩
    { init := 0, load := fun s _ _ => Except.ok s, activate := fun s => Except.ok s }
    false [[Event.other 1], [Event.closed, Event.other 2], [Event.other 3]]
  obtain ⟨_, hv2, _⟩ := hv
  obtain ⟨_, hu2, _⟩ := hu 0 rfl
  exact ⟨(hv2 [[Event.other 1]] [Event.closed, Event.other 2] [[Event.other 3]] rfl
      (by decide) (by decide)).1,
    (hu2 [[Event.other 1]] [Event.closed, Event.other 2] [[Event.other 3]] rfl
      (by decide) (by decide)).1⟩

/-! ## Geometry of the cube -/

/-- The index triples of the cube, in source order. -/
theorem triangles_cubeFaces :
    triangles Uniforms.cubeFaces =
      [(0, 1, 2), (0, 2, 3), (4, 0, 3), (4, 3, 7), (5, 4, 7), (5, 7, 6),
       (1, 5, 6), (1, 6, 2), (4, 5, 1), (4, 1, 0), (2, 6, 7), (2, 7, 3)] := by
  decide

/-- The two triangles of a face of the cube: they are the triangles lying in
the plane, share exactly two vertices, which are the ends of a diagonal of the
face, and their vertices are the four corners of the cube in that plane. -/
theorem cube_face_pair (axis : Axis) (s : ℚ) (hs : s = 1/2 ∨ s = -1/2) :
    ∃ t1 t2, (triangles Uniforms.cubeFaces).filter (inFace Uniforms.cubeVertices axis s)
        = [t1, t2] ∧
      ((verts t1).filter fun i => decide (i ∈ verts t2)).length = 2 ∧
      (verts t1 ++ verts t2).dedup.length = 4 ∧
      (∀ i, i < 8 →
        ((∃ v, Uniforms.cubeVertices[i]? = some v ∧ v.coord axis = s) ↔
          (i ∈ verts t1 ∨ i ∈ verts t2))) ∧
      ∃ i j p q, i ≠ j ∧
        ((verts t1).filter fun k => decide (k ∈ verts t2)) = [i, j] ∧
        Uniforms.cubeVertices[i]? = some p ∧ Uniforms.cubeVertices[j]? = some q ∧
        IsFaceDiagonal axis p q := by
  rw [triangles_cubeFaces]
  rcases hs with rfl | rfl <;> cases axis
  · refine ⟨(4, 0, 3), (4, 3, 7), ?_, by decide, by decide, ?_,
      4, 3, _, _, by decide, by decide, rfl, rfl, ?_, ?_⟩
    · norm_num [inFace, corners, Uniforms.cubeVertices, Vertex3D.coord, List.filter]
    · intro i hi
      interval_cases i <;> norm_num [Uniforms.cubeVertices, Vertex3D.coord, verts]
    · norm_num [Uniforms.cubeVertices, Vertex3D.coord]
    · intro ax hax
      cases ax <;> first
        | exact absurd rfl hax
        | norm_num [Uniforms.cubeVertices, Vertex3D.coord]
  · refine ⟨(4, 5, 1), (4, 1, 0), ?_, by decide, by decide, ?_,
      4, 1, _, _, by decide, by decide, rfl, rfl, ?_, ?_⟩
    · norm_num [inFace, corners, Uniforms.cubeVertices, Vertex3D.coord, List.filter]
    · intro i hi
      interval_cases i <;> norm_num [Uniforms.cubeVertices, Vertex3D.coord, verts]
    · norm_num [Uniforms.cubeVertices, Vertex3D.coord]
    · intro ax hax
      cases ax <;> first
        | exact absurd rfl hax
        | norm_num [Uniforms.cubeVertices, Vertex3D.coord]
  · refine ⟨(5, 4, 7), (5, 7, 6), ?_, by decide, by decide, ?_,
      5, 7, _, _, by decide, by decide, rfl, rfl, ?_, ?_⟩
    · norm_num [inFace, corners, Uniforms.cubeVertices, Vertex3D.coord, List.filter]
    · intro i hi
      interval_cases i <;> norm_num [Uniforms.cubeVertices, Vertex3D.coord, verts]
    · norm_num [Uniforms.cubeVertices, Vertex3D.coord]
    · intro ax hax
      cases ax <;> first
        | exact absurd rfl hax
        | norm_num [Uniforms.cubeVertices, Vertex3D.coord]
  · refine ⟨(1, 5, 6), (1, 6, 2), ?_, by decide, by decide, ?_,
      1, 6, _, _, by decide, by decide, rfl, rfl, ?_, ?_⟩
    · norm_num [inFace, corners, Uniforms.cubeVertices, Vertex3D.coord, List.filter]
    · intro i hi
      interval_cases i <;> norm_num [Uniforms.cubeVertices, Vertex3D.coord, verts]
    · norm_num [Uniforms.cubeVertices, Vertex3D.coord]
    · intro ax hax
      cases ax <;> first
        | exact absurd rfl hax
        | norm_num [Uniforms.cubeVertices, Vertex3D.coord]
  · refine ⟨(2, 6, 7), (2, 7, 3), ?_, by decide, by decide, ?_,
      2, 7, _, _, by decide, by decide, rfl, rfl, ?_, ?_⟩
    · norm_num [inFace, corners, Uniforms.cubeVertices, Vertex3D.coord, List.filter]
    · intro i hi
      interval_cases i <;> norm_num [Uniforms.cubeVertices, Vertex3D.coord, verts]
    · norm_num [Uniforms.cubeVertices, Vertex3D.coord]
    · intro ax hax
      cases ax <;> first
        | exact absurd rfl hax
        | norm_num [Uniforms.cubeVertices, Vertex3D.coord]
  · refine ⟨(0, 1, 2), (0, 2, 3), ?_, by decide, by decide, ?_,
      0, 2, _, _, by decide, by decide, rfl, rfl, ?_, ?_⟩
    · norm_num [inFace, corners, Uniforms.cubeVertices, Vertex3D.coord, List.filter]
    · intro i hi
      interval_cases i <;> norm_num [Uniforms.cubeVertices, Vertex3D.coord, verts]
    · norm_num [Uniforms.cubeVertices, Vertex3D.coord]
    · intro ax hax
      cases ax <;> first
        | exact absurd rfl hax
        | norm_num [Uniforms.cubeVertices, Vertex3D.coord]

/-- Every triangle of the cube has three distinct vertices lying in one of the
six face planes. -/
theorem cube_triangle_in_face (t : Nat × Nat × Nat) (ht : t ∈ triangles Uniforms.cubeFaces) :
    ∃ a b c, corners Uniforms.cubeVertices t = some (a, b, c) ∧
      (verts t).Nodup ∧ a ≠ b ∧ a ≠ c ∧ b ≠ c ∧
      ∃ axis s, (s = 1/2 ∨ s = -1/2) ∧
        a.coord axis = s ∧ b.coord axis = s ∧ c.coord axis = s := by
  rw [triangles_cubeFaces] at ht
  simp only [List.mem_cons, List.mem_singleton, List.not_mem_nil, or_false] at ht
  rcases ht with h | h | h | h | h | h | h | h | h | h | h | h <;> subst h
  · refine ⟨_, _, _, rfl, by decide, ?_, ?_, ?_, Axis.z, -1/2, Or.inr rfl, ?_⟩ <;>
      norm_num [Uniforms.cubeVertices, Vertex3D.coord]
  · refine ⟨_, _, _, rfl, by decide, ?_, ?_, ?_, Axis.z, -1/2, Or.inr rfl, ?_⟩ <;>
      norm_num [Uniforms.cubeVertices, Vertex3D.coord]
  · refine ⟨_, _, _, rfl, by decide, ?_, ?_, ?_, Axis.x, 1/2, Or.inl rfl, ?_⟩ <;>
      norm_num [Uniforms.cubeVertices, Vertex3D.coord]
  · refine ⟨_, _, _, rfl, by decide, ?_, ?_, ?_, Axis.x, 1/2, Or.inl rfl, ?_⟩ <;>
      norm_num [Uniforms.cubeVertices, Vertex3D.coord]
  · refine ⟨_, _, _, rfl, by decide, ?_, ?_, ?_, Axis.z, 1/2, Or.inl rfl, ?_⟩ <;>
      norm_num [Uniforms.cubeVertices, Vertex3D.coord]
  · refine ⟨_, _, _, rfl, by decide, ?_, ?_, ?_, Axis.z, 1/2, Or.inl rfl, ?_⟩ <;>
      norm_num [Uniforms.cubeVertices, Vertex3D.coord]
  · refine ⟨_, _, _, rfl, by decide, ?_, ?_, ?_, Axis.x, -1/2, Or.inr rfl, ?_⟩ <;>
      norm_num [Uniforms.cubeVertices, Vertex3D.coord]
  · refine ⟨_, _, _, rfl, by decide, ?_, ?_, ?_, Axis.x, -1/2, Or.inr rfl, ?_⟩ <;>
      norm_num [Uniforms.cubeVertices, Vertex3D.coord]
  · refine ⟨_, _, _, rfl, by decide, ?_, ?_, ?_, Axis.y, 1/2, Or.inl rfl, ?_⟩ <;>
      norm_num [Uniforms.cubeVertices, Vertex3D.coord]
  · refine ⟨_, _, _, rfl, by decide, ?_, ?_, ?_, Axis.y, 1/2, Or.inl rfl, ?_⟩ <;>
      norm_num [Uniforms.cubeVertices, Vertex3D.coord]
  · refine ⟨_, _, _, rfl, by decide, ?_, ?_, ?_, Axis.y, -1/2, Or.inr rfl, ?_⟩ <;>
      norm_num [Uniforms.cubeVertices, Vertex3D.coord]
  · refine ⟨_, _, _, rfl, by decide, ?_, ?_, ?_, Axis.y, -1/2, Or.inr rfl, ?_⟩ <;>
      norm_num [Uniforms.cubeVertices, Vertex3D.coord]

/-- C9. The 12 index triples of `cube` triangulate the surface of the cube:
every triangle has three pairwise distinct vertices that share one coordinate
value on one axis; each of the 6 face planes holds exactly 2 of the 12
triangles, which share exactly two vertices, the ends of a diagonal of the
face, and together use the 4 corners of the face; so each of the 8 vertices is
referenced by a triangle. The lists of the two programs are the same. -/
theorem cube_triangles_cover_faces :
    (triangles Uniforms.cubeFaces).length = 12 ∧
    (triangles Uniforms.cubeFaces).flatMap verts = Uniforms.cubeFaces ∧
    (∀ t ∈ triangles Uniforms.cubeFaces,
      ∃ a b c, corners Uniforms.cubeVertices t = some (a, b, c) ∧
        (verts t).Nodup ∧ a ≠ b ∧ a ≠ c ∧ b ≠ c ∧
        ∃ axis s, (s = 1/2 ∨ s = -1/2) ∧
          a.coord axis = s ∧ b.coord axis = s ∧ c.coord axis = s) ∧
    (∀ (axis : Axis) (s : ℚ), (s = 1/2 ∨ s = -1/2) →
      ∃ t1 t2,
        (triangles Uniforms.cubeFaces).filter (inFace Uniforms.cubeVertices axis s)
          = [t1, t2] ∧
        ((verts t1).filter fun i => decide (i ∈ verts t2)).length = 2 ∧
        (verts t1 ++ verts t2).dedup.length = 4 ∧
        (∀ i, i < 8 →
          ((∃ v, Uniforms.cubeVertices[i]? = some v ∧ v.coord axis = s) ↔
            (i ∈ verts t1 ∨ i ∈ verts t2))) ∧
        ∃ i j p q, i ≠ j ∧
          ((verts t1).filter fun k => decide (k ∈ verts t2)) = [i, j] ∧
          Uniforms.cubeVertices[i]? = some p ∧ Uniforms.cubeVertices[j]? = some q ∧
          IsFaceDiagonal axis p q) ∧
    (∀ i, i < 8 → ∃ t ∈ triangles Uniforms.cubeFaces, i ∈ verts t) ∧
    VertexBuffers.cubeVertices = Uniforms.cubeVertices ∧
    VertexBuffers.cubeFaces = Uniforms.cubeFaces := by
  refine ⟨by decide, by decide, cube_triangle_in_face, cube_face_pair, ?_, rfl, rfl⟩
  rw [triangles_cubeFaces]
  intro i hi
  interval_cases i <;> decide

/-- The normal and the winding number of every triangle of the cube. -/
theorem cube_triangle_winding (t : Nat × Nat × Nat) (ht : t ∈ triangles Uniforms.cubeFaces) :
    ∃ a b c, corners Uniforms.cubeVertices t = some (a, b, c) ∧
      normal a b c ≠ ⟨0, 0, 0⟩ ∧ (normal a b c).dot a = -1/2 ∧
      winding Uniforms.cubeVertices t = some (-1/2) := by
  rw [triangles_cubeFaces] at ht
  simp only [List.mem_cons, List.mem_singleton, List.not_mem_nil, or_false] at ht
  rcases ht with h | h | h | h | h | h | h | h | h | h | h | h <;> subst h <;>
  refine ⟨_, _, _, rfl, ?_, ?_, ?_⟩ <;>
  norm_num [winding, corners, Uniforms.cubeVertices, normal, Vertex3D.cross, Vertex3D.dot,
    Vertex3D.sub]

/-- C10. All 12 triangles of `cube` have the same winding: in exact rational
arithmetic the normal `(b - a) × (c - a)` of every triangle `(a, b, c)` is
non-zero and its dot product with `a` is `-1/2`, so it has the same strict
sign for all 12. The lists of the two programs are the same. -/
theorem cube_winding_uniform :
    (triangles Uniforms.cubeFaces).length = 12 ∧
    (∀ t ∈ triangles Uniforms.cubeFaces,
      ∃ a b c, corners Uniforms.cubeVertices t = some (a, b, c) ∧
        normal a b c ≠ ⟨0, 0, 0⟩ ∧ (normal a b c).dot a = -1/2 ∧
        winding Uniforms.cubeVertices t = some (-1/2)) ∧
    ((∀ t ∈ triangles Uniforms.cubeFaces,
        ∃ d, winding Uniforms.cubeVertices t = some d ∧ 0 < d) ∨
      (∀ t ∈ triangles Uniforms.cubeFaces,
        ∃ d, winding Uniforms.cubeVertices t = some d ∧ d < 0)) ∧
    VertexBuffers.cubeVertices = Uniforms.cubeVertices ∧
    VertexBuffers.cubeFaces = Uniforms.cubeFaces := by
  refine ⟨by decide, cube_triangle_winding, Or.inr ?_, rfl, rfl⟩
  intro t ht
  obtain ⟨a, b, c, _, _, _, hw⟩ := cube_triangle_winding t ht
  exact ⟨-1/2, hw, by norm_num⟩
